import Mathlib

/-!
# Startup configuration of LightningTip (`config.go`)

A shallow embedding of `initConfig`, `getDefaultDataDir`, `getDefaultLndDir`
and `getHomeDir`, together with the small part of the Go standard library
(`path.Join`, `path.Clean`, `strings.ToLower`, `fmt.Sprint` on an error) and
of the operating system (`os.Stat`, `os.Mkdir`) that these functions call.

Everything the process reads from its surroundings is an explicit input:
the OS family, the outcome of the current-user lookup, what the two go-flags
passes and the ini pass assign, the filesystem, and the result of
`initLogger`.
-/

namespace LightningTip

/-! ## Go standard library: `strings.ToLower` -/

/-- Go `unicode.ToLower` on one rune: the ASCII letters are shifted by
`'a' - 'A'`, every other ASCII rune is kept, and a rune from `0x80` on goes
through the Unicode case tables, which are the input `lowerRune`. -/
def toLowerRune (lowerRune : Char → Char) (c : Char) : Char :=
  if c.toNat < 128 then
    if 65 ≤ c.toNat ∧ c.toNat ≤ 90 then Char.ofNat (c.toNat + 32) else c
  else lowerRune c

/-- Go `strings.ToLower`: `unicode.ToLower` mapped over the runes. -/
def toLower (lowerRune : Char → Char) (s : String) : String :=
  String.mk (s.data.map (toLowerRune lowerRune))

/-! ## Go standard library: `path.Clean` and `path.Join` -/

/-- The inner loop of the `..` case of `path.Clean`:
`for out.w > dotdot && out.index(out.w) != '/' { out.w-- }`, on the write
index `w` of the buffer `buf`. -/
def backLoop (buf : List Char) (dotdot : Nat) : Nat → Nat
  | 0 => 0
  | w + 1 =>
    if dotdot < w + 1 ∧ buf.getD (w + 1) '/' ≠ '/' then backLoop buf dotdot w
    else w + 1

/-- The `..` case of `path.Clean` when `out.w > dotdot`: `out.w--`, then the
inner loop; the buffer is cut at the resulting write index. -/
def backtrack (out : List Char) (dotdot : Nat) : List Char :=
  out.take (backLoop out dotdot (out.length - 1))

/-- The main loop of `path.Clean` over the unread part of the path, with the
buffer written so far (`out`) and the index `dotdot` below which `..` must
not cut. The flag `inElem` is true while the `default` case is copying a
path element (its copy loop runs to the next `/` or to the end). -/
def cleanLoop (rooted : Bool) : Bool → List Char → List Char → Nat → List Char
  | _, [], out, _ => out
  | true, c :: tl, out, dotdot =>
    if c = '/' then cleanLoop rooted false tl out dotdot
    else cleanLoop rooted true tl (out ++ [c]) dotdot
  | false, c :: tl, out, dotdot =>
    if c = '/' then
      -- empty path element
      cleanLoop rooted false tl out dotdot
    else if c = '.' ∧ (tl = [] ∨ tl.head? = some '/') then
      -- . element
      cleanLoop rooted false tl out dotdot
    else
      match tl with
      | d :: tl2 =>
        if c = '.' ∧ d = '.' ∧ (tl2 = [] ∨ tl2.head? = some '/') then
          -- .. element: remove to last /
          if dotdot < out.length then
            cleanLoop rooted false tl2 (backtrack out dotdot) dotdot
          else if !rooted then
            let out1 := if 0 < out.length then out ++ ['/'] else out
            cleanLoop rooted false tl2 (out1 ++ ['.', '.']) (out1.length + 2)
          else cleanLoop rooted false tl2 out dotdot
        else
          -- real path element: add slash if needed, copy element
          let out1 :=
            if (rooted && out.length != 1) || (!rooted && out.length != 0) then out ++ ['/']
            else out
          cleanLoop rooted true (d :: tl2) (out1 ++ [c]) dotdot
      | [] =>
        let out1 :=
          if (rooted && out.length != 1) || (!rooted && out.length != 0) then out ++ ['/']
          else out
        cleanLoop rooted true [] (out1 ++ [c]) dotdot

/-- Go `path.Clean` on the runes of a path. -/
def cleanChars (p : List Char) : List Char :=
  match p with
  | [] => ['.']
  | c :: tl =>
    let rooted := decide (c = '/')
    let out :=
      if rooted then cleanLoop true false tl ['/'] 1
      else cleanLoop false false (c :: tl) [] 0
    if out.length = 0 then ['.'] else out

/-- Go `path.Clean`. -/
def pathClean (p : String) : String := String.mk (cleanChars p.data)

/-- The buffer `path.Join` builds: the non-empty elements separated by `/`. -/
def joinBuf : List Char → List String → List Char
  | buf, [] => buf
  | buf, e :: es =>
    if 0 < buf.length ∨ e.data ≠ [] then
      joinBuf ((if 0 < buf.length then buf ++ ['/'] else buf) ++ e.data) es
    else joinBuf buf es

/-- Go `path.Join`: the empty string when every element is empty, otherwise
the non-empty elements separated by `/` and cleaned. -/
def pathJoin (elem : List String) : String :=
  if (elem.map (fun e => e.data.length)).sum = 0 then ""
  else String.mk (cleanChars (joinBuf [] elem))

/-- Go `path.IsAbs`: the path begins with `/`. -/
def isAbs (p : String) : Bool := p.data.head? = some '/'

/-! ## Go standard library and operating system: errors, `os.Stat`, `os.Mkdir` -/

/-- Go `fmt.Sprint` applied to a value of type `error`: `<nil>` for the nil
error, the text of the error otherwise. -/
def sprintError : Option String → String
  | none => "<nil>"
  | some msg => msg

/-- The filesystem as the directory step sees it: the paths that exist, the
paths at which `os.Mkdir` is refused by the system (permission denied,
missing parent directory, read-only volume), and the paths at which
`os.Stat` fails for a reason other than absence (a directory on the way
that may not be searched). -/
structure FileSystem where
  existing : List String
  refused : List String
  unreadable : List String
  deriving DecidableEq, Repr

/-- One call into the operating system. -/
inductive OsCall where
  | stat (name : String)
  | mkdir (name : String) (perm : Nat)
  deriving DecidableEq, Repr

/-- The error of `os.Stat`, as far as `os.IsNotExist` tells errors apart. -/
inductive StatError where
  | notExist
  | other
  deriving DecidableEq, Repr

/-- Go `os.Stat`, its error only: nil for a path that exists. -/
def osStat (fs : FileSystem) (name : String) : Option StatError :=
  if name ∈ fs.unreadable then some StatError.other
  else if name ∈ fs.existing then none
  else some StatError.notExist

/-- Go `os.IsNotExist`. -/
def osIsNotExist : Option StatError → Bool
  | some StatError.notExist => true
  | _ => false

/-- Go `os.Mkdir`: fails on a path that exists or at which creation is
refused, and otherwise adds the path to the filesystem. -/
def osMkdir (fs : FileSystem) (name : String) : FileSystem × Option String :=
  if name ∈ fs.existing then (fs, some ("mkdir " ++ name ++ ": file exists"))
  else if name ∈ fs.refused then (fs, some ("mkdir " ++ name ++ ": permission denied"))
  else ({ fs with existing := name :: fs.existing }, none)

/-! ## The constants and the configuration structure of `config.go` -/

def defaultConfigFile : String := "lightningTip.conf"
def defaultDataDir : String := "LightningTip"
def defaultLogFile : String := "lightningTip.log"
def defaultLogLevel : String := "info"
def defaultRESTHost : String := "0.0.0.0:8081"
def defaultTLSCertFile : String := ""
def defaultTLSKeyFile : String := ""
def defaultAccessDomain : String := ""
def defaultTipExpiry : Int := 3600
def defaultReconnect : Bool := false
def defaultLndGRPCHost : String := "localhost:10009"
def defaultLndCertFile : String := "tls.cert"
def defaultMacaroonFile : String := "invoice.macaroon"

/-- The fields of `backends.LND` that `initConfig` fills. -/
structure LND where
  GRPCHost : String
  CertFile : String
  MacaroonFile : String
  deriving DecidableEq, Repr

/-- The struct `config`. -/
structure config where
  ConfigFile : String
  DataDir : String
  LogFile : String
  LogLevel : String
  RESTHost : String
  TLSCertFile : String
  TLSKeyFile : String
  AccessDomain : String
  TipExpiry : Int
  Reconnect : Bool
  LND : LND
  deriving DecidableEq, Repr

/-- The severities of go-logging. -/
inductive Level where
  | CRITICAL
  | ERROR
  | WARNING
  | NOTICE
  | INFO
  | DEBUG
  deriving DecidableEq, Repr

/-! ## Keys, values and partial assignments -/

/-- The options of `config`, one per field that carries a `long` tag, the
three of the group `lnd` included. -/
inductive Key where
  | config
  | datadir
  | logfile
  | loglevel
  | resthost
  | tlscertfile
  | tlskeyfile
  | accessdomain
  | tipexpiry
  | reconnect
  | lndGRPCHost
  | lndCertFile
  | lndMacaroonFile
  deriving DecidableEq, Repr

/-- A value of an option: a string, an `int64` or a boolean. -/
inductive Value where
  | str (s : String)
  | int (n : Int)
  | bool (b : Bool)
  deriving DecidableEq, Repr

/-- A partial assignment of the options: what one go-flags pass writes into
the structure. A field that is `none` is a key the pass does not specify. -/
structure Assignment where
  ConfigFile : Option String
  DataDir : Option String
  LogFile : Option String
  LogLevel : Option String
  RESTHost : Option String
  TLSCertFile : Option String
  TLSKeyFile : Option String
  AccessDomain : Option String
  TipExpiry : Option Int
  Reconnect : Option Bool
  LndGRPCHost : Option String
  LndCertFile : Option String
  LndMacaroonFile : Option String
  deriving DecidableEq, Repr

/-- The assignment that specifies no key: no flags, or an empty file. -/
def Assignment.empty : Assignment :=
  { ConfigFile := none, DataDir := none, LogFile := none, LogLevel := none,
    RESTHost := none, TLSCertFile := none, TLSKeyFile := none, AccessDomain := none,
    TipExpiry := none, Reconnect := none, LndGRPCHost := none, LndCertFile := none,
    LndMacaroonFile := none }

/-- The value an assignment gives to a key, if it specifies the key. -/
def Assignment.get (a : Assignment) : Key → Option Value
  | Key.config => a.ConfigFile.map Value.str
  | Key.datadir => a.DataDir.map Value.str
  | Key.logfile => a.LogFile.map Value.str
  | Key.loglevel => a.LogLevel.map Value.str
  | Key.resthost => a.RESTHost.map Value.str
  | Key.tlscertfile => a.TLSCertFile.map Value.str
  | Key.tlskeyfile => a.TLSKeyFile.map Value.str
  | Key.accessdomain => a.AccessDomain.map Value.str
  | Key.tipexpiry => a.TipExpiry.map Value.int
  | Key.reconnect => a.Reconnect.map Value.bool
  | Key.lndGRPCHost => a.LndGRPCHost.map Value.str
  | Key.lndCertFile => a.LndCertFile.map Value.str
  | Key.lndMacaroonFile => a.LndMacaroonFile.map Value.str

/-- The value of a key in the configuration. -/
def config.get (c : config) : Key → Value
  | Key.config => Value.str c.ConfigFile
  | Key.datadir => Value.str c.DataDir
  | Key.logfile => Value.str c.LogFile
  | Key.loglevel => Value.str c.LogLevel
  | Key.resthost => Value.str c.RESTHost
  | Key.tlscertfile => Value.str c.TLSCertFile
  | Key.tlskeyfile => Value.str c.TLSKeyFile
  | Key.accessdomain => Value.str c.AccessDomain
  | Key.tipexpiry => Value.int c.TipExpiry
  | Key.reconnect => Value.bool c.Reconnect
  | Key.lndGRPCHost => Value.str c.LND.GRPCHost
  | Key.lndCertFile => Value.str c.LND.CertFile
  | Key.lndMacaroonFile => Value.str c.LND.MacaroonFile

/-- One go-flags pass over the structure: the keys the pass specifies are
overwritten, every other field keeps its value. -/
def Assignment.applyTo (a : Assignment) (c : config) : config :=
  { ConfigFile := a.ConfigFile.getD c.ConfigFile,
    DataDir := a.DataDir.getD c.DataDir,
    LogFile := a.LogFile.getD c.LogFile,
    LogLevel := a.LogLevel.getD c.LogLevel,
    RESTHost := a.RESTHost.getD c.RESTHost,
    TLSCertFile := a.TLSCertFile.getD c.TLSCertFile,
    TLSKeyFile := a.TLSKeyFile.getD c.TLSKeyFile,
    AccessDomain := a.AccessDomain.getD c.AccessDomain,
    TipExpiry := a.TipExpiry.getD c.TipExpiry,
    Reconnect := a.Reconnect.getD c.Reconnect,
    LND :=
      { GRPCHost := a.LndGRPCHost.getD c.LND.GRPCHost,
        CertFile := a.LndCertFile.getD c.LND.CertFile,
        MacaroonFile := a.LndMacaroonFile.getD c.LND.MacaroonFile } }

/-! ## The inputs of `initConfig` -/

/-- What the Go runtime reports: `runtime.GOOS`, the outcome of
`user.Current()` (the `HomeDir` of the user, or `none` when the lookup
fails), and the Unicode lower-case tables. -/
structure Platform where
  GOOS : String
  currentUser : Option String
  lowerRune : Char → Char

/-- Everything `initConfig` reads from outside.

* `flagsTolerant` is what `flags.NewParser(&cfg, flags.IgnoreUnknown).Parse()`
  assigns, `flagsStrict` what `flags.Parse(&cfg)` assigns and `flagsErr` the
  error of the latter. Both passes read the same command line: on a command
  line without errors the two assignments are the same, while on a command
  line with an unknown flag the tolerant pass skips the flag and goes on and
  the second pass may stop at it.
* `iniParse name` is what `flags.IniParse(name, &cfg)` assigns from the file
  at `name`, and its error.
* `initLogger` gives the error of `initLogger(logFile, logLevel)`. -/
structure Env where
  platform : Platform
  flagsTolerant : Assignment
  flagsStrict : Assignment
  flagsErr : Option String
  iniParse : String → Assignment × Option String
  fs : FileSystem
  initLogger : String → Level → Option String

/-! ## `getHomeDir`, `getDefaultDataDir`, `getDefaultLndDir` -/

/-- The function `getHomeDir`. -/
def getHomeDir (p : Platform) : String :=
  match p.currentUser with
  | some usrHomeDir =>
    if p.GOOS = "darwin" then pathJoin [usrHomeDir, "Library/Application Support"]
    else if p.GOOS = "windows" then pathJoin [usrHomeDir, "AppData/Local"]
    else usrHomeDir
  | none => ""

/-- The function `getDefaultDataDir`; the case `windows` falls through into
the case `darwin`. -/
def getDefaultDataDir (p : Platform) : String :=
  let homeDir := getHomeDir p
  if p.GOOS = "windows" then pathJoin [homeDir, defaultDataDir]
  else if p.GOOS = "darwin" then pathJoin [homeDir, defaultDataDir]
  else pathJoin [homeDir, "." ++ toLower p.lowerRune defaultDataDir]

/-- The function `getDefaultLndDir`; the case `darwin` falls through into
the case `windows`. -/
def getDefaultLndDir (p : Platform) : String :=
  let homeDir := getHomeDir p
  if p.GOOS = "darwin" then pathJoin [homeDir, "Lnd"]
  else if p.GOOS = "windows" then pathJoin [homeDir, "Lnd"]
  else pathJoin [homeDir, ".lnd"]

/-! ## `initConfig` -/

/-- The composite literal `initConfig` assigns to `cfg` first. -/
def defaultConfig (p : Platform) : config :=
  { ConfigFile := pathJoin [getDefaultDataDir p, defaultConfigFile],
    DataDir := getDefaultDataDir p,
    LogFile := pathJoin [getDefaultDataDir p, defaultLogFile],
    LogLevel := defaultLogLevel,
    RESTHost := defaultRESTHost,
    TLSCertFile := defaultTLSCertFile,
    TLSKeyFile := defaultTLSKeyFile,
    AccessDomain := defaultAccessDomain,
    TipExpiry := defaultTipExpiry,
    Reconnect := defaultReconnect,
    LND :=
      { GRPCHost := defaultLndGRPCHost,
        CertFile := pathJoin [getDefaultLndDir p, defaultLndCertFile],
        MacaroonFile := pathJoin [getDefaultLndDir p, defaultMacaroonFile] } }

/-- The three parsing passes of `initConfig`: the tolerant flag pass, the
ini pass on the file at `cfg.ConfigFile` as the first pass left it, and the
second flag pass. Returns the path handed to `flags.IniParse`, `errFile`
and the resulting `cfg`. -/
def mergeConfig (env : Env) : String × Option String × config :=
  let cfg0 := defaultConfig env.platform
  let cfg1 := env.flagsTolerant.applyTo cfg0
  let ini := env.iniParse cfg1.ConfigFile
  let cfg2 := ini.1.applyTo cfg1
  let cfg3 := env.flagsStrict.applyTo cfg2
  (cfg1.ConfigFile, ini.2, cfg3)

/-- The `switch strings.ToLower(cfg.LogLevel)` of `initConfig`, with
`logging.DEBUG` as the level when no case matches. -/
def chooseLogLevel (lowerRune : Char → Char) (logLevel : String) : Level :=
  let s := toLower lowerRune logLevel
  if s = "info" then Level.INFO
  else if s = "warning" then Level.WARNING
  else if s = "error" then Level.ERROR
  else Level.DEBUG

/-- What the directory step leaves behind: the filesystem, `errDataDir`,
`dataDirCreated` and the calls made into the operating system. -/
structure DirResult where
  fs : FileSystem
  errDataDir : Option String
  dataDirCreated : Bool
  calls : List OsCall
  deriving DecidableEq, Repr

/-- The directory step of `initConfig` on the path `dir`:
`if _, err := os.Stat(dir); os.IsNotExist(err) { errDataDir = os.Mkdir(dir, 0700); dataDirCreated = true }`. -/
def createDataDir (dir : String) (fs : FileSystem) : DirResult :=
  if osIsNotExist (osStat fs dir) then
    let r := osMkdir fs dir
    { fs := r.1, errDataDir := r.2, dataDirCreated := true,
      calls := [OsCall.stat dir, OsCall.mkdir dir 0o700] }
  else
    { fs := fs, errDataDir := none, dataDirCreated := false, calls := [OsCall.stat dir] }

/-- The messages `initConfig` hands to the logger after `initLogger` ran, in
order, each with its severity. -/
def startupMessages (p : Platform) (cfg : config) (err errDataDir : Option String)
    (dataDirCreated : Bool) (errFile errLogFile : Option String) : List (Level × String) :=
  (if err ≠ none then [(Level.ERROR, "Failed to parse command line flags")] else [])
  ++ (if errDataDir ≠ none then
        [(Level.ERROR, "Could not create data directory"),
         (Level.DEBUG, "Data directory path: " ++ getDefaultDataDir p)]
      else if dataDirCreated then
        [(Level.DEBUG, "Created data directory: " ++ getDefaultDataDir p)]
      else [])
  ++ (match errFile with
      | some e => [(Level.WARNING, "Failed to parse config file: " ++ sprintError (some e))]
      | none => [(Level.DEBUG, "Parsed config file: " ++ cfg.ConfigFile)])
  ++ (if errLogFile ≠ none then
        [(Level.ERROR, "Failed to initialize log file: " ++ sprintError err)]
      else [(Level.DEBUG, "Initialized log file: " ++ cfg.LogFile)])

/-- The state `initConfig` leaves behind. -/
structure Startup where
  cfg : config
  iniPath : String
  logLevel : Level
  dir : DirResult
  loggerFile : String
  errLogFile : Option String
  messages : List (Level × String)
  backend : LND

/-- The function `initConfig`. It always returns: no error ends it early. -/
def initConfig (env : Env) : Startup :=
  let m := mergeConfig env
  let errFile := m.2.1
  let cfg := m.2.2
  let err := env.flagsErr
  let logLevel := chooseLogLevel env.platform.lowerRune cfg.LogLevel
  let dir := createDataDir (getDefaultDataDir env.platform) env.fs
  let errLogFile := env.initLogger cfg.LogFile logLevel
  { cfg := cfg,
    iniPath := m.1,
    logLevel := logLevel,
    dir := dir,
    loggerFile := cfg.LogFile,
    errLogFile := errLogFile,
    messages :=
      startupMessages env.platform cfg err dir.errDataDir dir.dataDirCreated errFile errLogFile,
    backend := cfg.LND }

/-! ## Sample inputs -/

/-- A Linux machine on which the current user has the home `/home/alice`;
the Unicode tables are not consulted on ASCII text. -/
def linuxAlice : Platform :=
  { GOOS := "linux", currentUser := some "/home/alice", lowerRune := id }

/-- A Linux machine on which `user.Current()` fails. -/
def linuxNoUser : Platform :=
  { GOOS := "linux", currentUser := none, lowerRune := id }

/-- A macOS machine on which the current user has the home `/Users/alice`. -/
def darwinAlice : Platform :=
  { GOOS := "darwin", currentUser := some "/Users/alice", lowerRune := id }

/-- A filesystem on which only the home of the user exists. -/
def homeOnly : FileSystem :=
  { existing := ["/home/alice"], refused := [], unreadable := [] }

/-- No configuration file anywhere: `flags.IniParse` assigns nothing and
reports that the file is missing. -/
def noIniFile (name : String) : Assignment × Option String :=
  (Assignment.empty, some ("open " ++ name ++ ": no such file or directory"))

/-- Every file is empty: `flags.IniParse` assigns nothing and succeeds. -/
def emptyIniFile (_name : String) : Assignment × Option String :=
  (Assignment.empty, none)

/-- The run with an empty configuration file and no flags. -/
def envEmpty : Env :=
  { platform := linuxAlice, flagsTolerant := Assignment.empty,
    flagsStrict := Assignment.empty, flagsErr := none, iniParse := emptyIniFile,
    fs := homeOnly, initLogger := fun _ _ => none }

/-- The command line `--tipexpiry=N`. -/
def flagTipExpiry (n : Int) : Assignment :=
  { Assignment.empty with TipExpiry := some n }

/-- The run whose configuration file sets `tipexpiry=7200` and whose command
line is `--tipexpiry=1800`. -/
def envTipExpiry : Env :=
  { platform := linuxAlice, flagsTolerant := flagTipExpiry 1800,
    flagsStrict := flagTipExpiry 1800, flagsErr := none,
    iniParse := fun _ => (flagTipExpiry 7200, none),
    fs := homeOnly, initLogger := fun _ _ => none }

/-- The run whose configuration file sets `tipexpiry=7200` and whose command
line is `--bogus --tipexpiry=1800`: the tolerant pass skips the unknown flag
and assigns `tipexpiry`, the second pass stops at the unknown flag with an
error and assigns nothing. -/
def envUnknownFlag : Env :=
  { platform := linuxAlice, flagsTolerant := flagTipExpiry 1800,
    flagsStrict := Assignment.empty, flagsErr := some "unknown flag bogus",
    iniParse := fun _ => (flagTipExpiry 7200, none),
    fs := homeOnly, initLogger := fun _ _ => none }

/-- The command line `--config=P`. -/
def flagConfig (name : String) : Assignment :=
  { Assignment.empty with ConfigFile := some name }

/-- A file whose only line is `resthost=V`. -/
def fileRestHost (host : String) : Assignment :=
  { Assignment.empty with RESTHost := some host }

/-- The run with the command line `--config=/tmp/custom.conf`, where that
file holds `resthost=127.0.0.1:9000` and no other configuration file
exists. -/
def envCustomConf : Env :=
  { platform := linuxAlice, flagsTolerant := flagConfig "/tmp/custom.conf",
    flagsStrict := flagConfig "/tmp/custom.conf", flagsErr := none,
    iniParse := fun name =>
      if name = "/tmp/custom.conf" then (fileRestHost "127.0.0.1:9000", none)
      else noIniFile name,
    fs := homeOnly, initLogger := fun _ _ => none }

/-- The run with the command line `--datadir=/tmp/tipdata` and no
configuration file, on a filesystem where only the home exists. -/
def envDataDir : Env :=
  { platform := linuxAlice,
    flagsTolerant := { Assignment.empty with DataDir := some "/tmp/tipdata" },
    flagsStrict := { Assignment.empty with DataDir := some "/tmp/tipdata" },
    flagsErr := none, iniParse := noIniFile,
    fs := homeOnly, initLogger := fun _ _ => none }

/-- A filesystem on which the data directory and an (empty) configuration
file in it exist. -/
def dataDirPresent : FileSystem :=
  { existing :=
      ["/home/alice/.lightningtip/lightningTip.conf", "/home/alice/.lightningtip",
       "/home/alice"],
    refused := [], unreadable := [] }

/-- The run with no flags and an empty configuration file in which the log
file cannot be opened. -/
def envLogFileFails : Env :=
  { platform := linuxAlice, flagsTolerant := Assignment.empty,
    flagsStrict := Assignment.empty, flagsErr := none, iniParse := emptyIniFile,
    fs := dataDirPresent,
    initLogger := fun name _ => some ("open " ++ name ++ ": permission denied") }

/-- A filesystem on which the directory `/data` is absent and may not be
created. -/
def fsRefused : FileSystem :=
  { existing := [], refused := ["/data"], unreadable := [] }

/-- A filesystem on which the directory `/data` is absent and may be
created. -/
def fsFresh : FileSystem :=
  { existing := [], refused := [], unreadable := [] }

/-! ## The model of `path.Clean` and `path.Join` on the table of the Go tests -/

/-- The model of `path.Clean` and `path.Join` gives the results listed in
the test tables of the Go package `path`. -/
theorem pathClean_table :
    pathClean "" = "." ∧
    pathClean "abc" = "abc" ∧
    pathClean "abc/def" = "abc/def" ∧
    pathClean "a/b/c" = "a/b/c" ∧
    pathClean "." = "." ∧
    pathClean ".." = ".." ∧
    pathClean "../.." = "../.." ∧
    pathClean "../../abc" = "../../abc" ∧
    pathClean "/abc" = "/abc" ∧
    pathClean "/" = "/" ∧
    pathClean "abc/" = "abc" ∧
    pathClean "abc/def/" = "abc/def" ∧
    pathClean "a/b/c/" = "a/b/c" ∧
    pathClean "./" = "." ∧
    pathClean "../" = ".." ∧
    pathClean "../../" = "../.." ∧
    pathClean "/abc/" = "/abc" ∧
    pathClean "abc//def//ghi" = "abc/def/ghi" ∧
    pathClean "//abc" = "/abc" ∧
    pathClean "///abc" = "/abc" ∧
    pathClean "//abc//" = "/abc" ∧
    pathClean "abc//" = "abc" ∧
    pathClean "abc/./def" = "abc/def" ∧
    pathClean "/./abc/def" = "/abc/def" ∧
    pathClean "abc/." = "abc" ∧
    pathClean "abc/def/ghi/../jkl" = "abc/def/jkl" ∧
    pathClean "abc/def/../ghi/../jkl" = "abc/jkl" ∧
    pathClean "abc/def/.." = "abc" ∧
    pathClean "abc/def/../.." = "." ∧
    pathClean "/abc/def/../.." = "/" ∧
    pathClean "abc/def/../../.." = ".." ∧
    pathClean "/abc/def/../../.." = "/" ∧
    pathClean "abc/def/../../../ghi/jkl/../../../mno" = "../../mno" ∧
    pathClean "abc/./../def" = "def" ∧
    pathClean "abc//./../def" = "def" ∧
    pathClean "abc/../../././../def" = "../../def" ∧
    pathJoin ["a", "b"] = "a/b" ∧
    pathJoin ["a", ""] = "a" ∧
    pathJoin ["", "b"] = "b" ∧
    pathJoin ["/", "a"] = "/a" ∧
    pathJoin ["/", ""] = "/" ∧
    pathJoin ["a/", "b"] = "a/b" ∧
    pathJoin ["a/", ""] = "a" ∧
    pathJoin ["", ""] = "" ∧
    pathJoin ["a", "b", "c"] = "a/b/c" ∧
    pathJoin [] = "" := by
  decide

/-! ## The merge: precedence and defaults -/

/-- A key the pass specifies ends up with the value the pass gives it. -/
theorem get_applyTo_of_some (a : Assignment) (c : config) (k : Key) (v : Value)
    (h : a.get k = some v) : (a.applyTo c).get k = v := by
  cases k <;>
    simp only [Assignment.get, Option.map_eq_some'] at h <;>
    obtain ⟨x, hx, rfl⟩ := h <;>
    simp [Assignment.applyTo, config.get, hx]

/-- A key the pass does not specify keeps its value. -/
theorem get_applyTo_of_none (a : Assignment) (c : config) (k : Key)
    (h : a.get k = none) : (a.applyTo c).get k = c.get k := by
  cases k <;>
    simp only [Assignment.get, Option.map_eq_none'] at h <;>
    simp [Assignment.applyTo, config.get, h]

/-- C1, as stated, fails on a command line with an unknown flag: with the
file `tipexpiry=7200` and the command line `--bogus --tipexpiry=1800` the
key `tipexpiry` is set in the file and on the command line (the tolerant
pass assigns 1800), the second pass assigns nothing, and the resolved
`TipExpiry` is the value of the file, 7200. -/
theorem flag_after_unknown_flag_loses_to_file :
    envUnknownFlag.flagsTolerant.get Key.tipexpiry = some (Value.int 1800) ∧
    (envUnknownFlag.iniParse (initConfig envUnknownFlag).iniPath).1.get Key.tipexpiry =
      some (Value.int 7200) ∧
    (initConfig envUnknownFlag).cfg.TipExpiry = 7200 ∧
    ¬ (∀ (env : Env) (k : Key) (v w : Value),
        env.flagsTolerant.get k = some v →
        (env.iniParse (initConfig env).iniPath).1.get k = some w →
        (initConfig env).cfg.get k = v) := by
  refine ⟨by decide, by decide, by decide, ?_⟩
  intro h
  have h2 := h envUnknownFlag Key.tipexpiry (Value.int 1800) (Value.int 7200)
    (by decide) (by decide)
  revert h2
  decide

/-- C1, amended: for every run and every key that the configuration file
read by `initConfig` sets (to `w`) and the second, authoritative flag pass
assigns (to `v`), the value of the key in `cfg` after `initConfig` is the
command-line value `v`. On a command line that parses without error the
second pass assigns every key set on the command line. -/
theorem flag_overrides_file (env : Env) (k : Key) (v w : Value)
    (hflag : env.flagsStrict.get k = some v)
    (_hfile : (env.iniParse (initConfig env).iniPath).1.get k = some w) :
    (initConfig env).cfg.get k = v := by
  exact get_applyTo_of_some _ _ k v hflag

/-- C1, amended, at the file `tipexpiry=7200` and the command line `--tipexpiry=1800`:
the resolved `TipExpiry` is 1800. -/
theorem flag_overrides_file_witness :
    (initConfig envTipExpiry).cfg.get Key.tipexpiry = Value.int 1800 :=
  flag_overrides_file envTipExpiry Key.tipexpiry (Value.int 1800) (Value.int 7200)
    (by decide) (by decide)

/-- C2: a key that neither flag pass and not the configuration file read by
`initConfig` sets has, after `initConfig`, the value of the built-in
defaults; for the keys `resthost`, `tipexpiry`, `reconnect`, `loglevel` and
`lnd.grpchost` that value is `0.0.0.0:8081`, 3600, false, `info` and
`localhost:10009`. -/
theorem default_fallback (env : Env) (k : Key)
    (htol : env.flagsTolerant.get k = none)
    (hflag : env.flagsStrict.get k = none)
    (hfile : (env.iniParse (initConfig env).iniPath).1.get k = none) :
    (initConfig env).cfg.get k = (defaultConfig env.platform).get k ∧
    (k = Key.resthost → (initConfig env).cfg.RESTHost = "0.0.0.0:8081") ∧
    (k = Key.tipexpiry → (initConfig env).cfg.TipExpiry = 3600) ∧
    (k = Key.reconnect → (initConfig env).cfg.Reconnect = false) ∧
    (k = Key.loglevel → (initConfig env).cfg.LogLevel = "info") ∧
    (k = Key.lndGRPCHost → (initConfig env).cfg.LND.GRPCHost = "localhost:10009") := by
  have hget : (initConfig env).cfg.get k = (defaultConfig env.platform).get k := by
    have hfile1 : (env.iniParse
        (env.flagsTolerant.applyTo (defaultConfig env.platform)).ConfigFile).1.get k = none :=
      hfile
    show ((mergeConfig env).2.2).get k = _
    unfold mergeConfig
    simp only
    rw [get_applyTo_of_none _ _ k hflag, get_applyTo_of_none _ _ k hfile1,
      get_applyTo_of_none _ _ k htol]
  refine ⟨hget, ?_, ?_, ?_, ?_, ?_⟩ <;> intro hk <;> subst hk <;>
    simpa [config.get, defaultConfig, defaultRESTHost, defaultTipExpiry, defaultReconnect,
      defaultLogLevel, defaultLndGRPCHost] using hget

/-- C2, with an empty configuration file and no flags: `RESTHost` is
`0.0.0.0:8081`, `TipExpiry` is 3600, `Reconnect` is false, `LogLevel` is
`info` and `LND.GRPCHost` is `localhost:10009`. -/
theorem default_fallback_witness :
    (initConfig envEmpty).cfg.RESTHost = "0.0.0.0:8081" ∧
    (initConfig envEmpty).cfg.TipExpiry = 3600 ∧
    (initConfig envEmpty).cfg.Reconnect = false ∧
    (initConfig envEmpty).cfg.LogLevel = "info" ∧
    (initConfig envEmpty).cfg.LND.GRPCHost = "localhost:10009" :=
  ⟨(default_fallback envEmpty Key.resthost (by decide) (by decide) (by decide)).2.1 rfl,
   (default_fallback envEmpty Key.tipexpiry (by decide) (by decide) (by decide)).2.2.1 rfl,
   (default_fallback envEmpty Key.reconnect (by decide) (by decide) (by decide)).2.2.2.1 rfl,
   (default_fallback envEmpty Key.loglevel (by decide) (by decide) (by decide)).2.2.2.2.1 rfl,
   (default_fallback envEmpty Key.lndGRPCHost (by decide) (by decide) (by decide)).2.2.2.2.2 rfl⟩

/-! ## The log level -/

/-- C3: the log level `initConfig` chooses is `chooseLogLevel` of the final
`cfg.LogLevel`; it is INFO, WARNING or ERROR when the lower-cased string is
`info`, `warning` or `error` and DEBUG for every other string; two strings
with the same lower-casing get the same level; and `info`, `INFO`,
`Warning`, `error`, `verbose` give INFO, INFO, WARNING, ERROR, DEBUG. -/
theorem logLevel_mapping :
    (∀ env : Env, (initConfig env).logLevel =
      chooseLogLevel env.platform.lowerRune (initConfig env).cfg.LogLevel) ∧
    (∀ (lr : Char → Char) (s : String),
      (toLower lr s = "info" → chooseLogLevel lr s = Level.INFO) ∧
      (toLower lr s = "warning" → chooseLogLevel lr s = Level.WARNING) ∧
      (toLower lr s = "error" → chooseLogLevel lr s = Level.ERROR) ∧
      (toLower lr s ≠ "info" → toLower lr s ≠ "warning" → toLower lr s ≠ "error" →
        chooseLogLevel lr s = Level.DEBUG)) ∧
    (∀ (lr : Char → Char) (s t : String),
      toLower lr s = toLower lr t → chooseLogLevel lr s = chooseLogLevel lr t) ∧
    (∀ lr : Char → Char,
      chooseLogLevel lr "info" = Level.INFO ∧
      chooseLogLevel lr "INFO" = Level.INFO ∧
      chooseLogLevel lr "Warning" = Level.WARNING ∧
      chooseLogLevel lr "error" = Level.ERROR ∧
      chooseLogLevel lr "verbose" = Level.DEBUG) := by
  refine ⟨fun _ => rfl, ?_, ?_, ?_⟩
  · intro lr s
    refine ⟨?_, ?_, ?_, ?_⟩
    · intro h
      simp [chooseLogLevel, h]
    · intro h
      simp [chooseLogLevel, h]
    · intro h
      simp [chooseLogLevel, h]
    · intro h1 h2 h3
      simp [chooseLogLevel, h1, h2, h3]
  · intro lr s t h
    simp [chooseLogLevel, h]
  · intro lr
    have e1 : toLower lr "info" = "info" := rfl
    have e2 : toLower lr "INFO" = "info" := rfl
    have e3 : toLower lr "Warning" = "warning" := rfl
    have e4 : toLower lr "error" = "error" := rfl
    have e5 : toLower lr "verbose" = "verbose" := rfl
    refine ⟨?_, ?_, ?_, ?_, ?_⟩
    · simp [chooseLogLevel, e1]
    · simp [chooseLogLevel, e2]
    · simp only [chooseLogLevel, e3]
      decide
    · simp only [chooseLogLevel, e4]
      decide
    · simp only [chooseLogLevel, e5]
      decide

/-! ## A configuration file named on the command line -/

/-- C7, as stated, fails at `--config=/tmp/custom.conf` with the file
`resthost=127.0.0.1:9000`: the file read is the one at that path and
`RESTHost` is the value of the file, but not every key other than `resthost`
has its built-in default, since `ConfigFile` is the path of the flag. -/
theorem custom_conf_not_all_default :
    (initConfig envCustomConf).iniPath = "/tmp/custom.conf" ∧
    (initConfig envCustomConf).cfg.RESTHost = "127.0.0.1:9000" ∧
    ¬ (∀ k : Key, k ≠ Key.resthost →
        (initConfig envCustomConf).cfg.get k = (defaultConfig envCustomConf.platform).get k) := by
  refine ⟨by decide, by decide, ?_⟩
  intro h
  have hc := h Key.config (by decide)
  revert hc
  decide

/-- C7, amended: when both flag passes assign exactly `config := P` and the
file at `P` assigns exactly `resthost := V`, the file read is the one at
`P`, and `cfg` is the built-in defaults with `ConfigFile` replaced by `P`
and `RESTHost` replaced by `V`. -/
theorem custom_conf_resolution (env : Env) (P V : String)
    (htol : env.flagsTolerant = flagConfig P)
    (hflag : env.flagsStrict = flagConfig P)
    (hfile : (env.iniParse P).1 = fileRestHost V) :
    (initConfig env).iniPath = P ∧
    (initConfig env).cfg =
      { defaultConfig env.platform with ConfigFile := P, RESTHost := V } := by
  have hpath : (initConfig env).iniPath = P := by
    show (env.flagsTolerant.applyTo (defaultConfig env.platform)).ConfigFile = P
    rw [htol]
    rfl
  refine ⟨hpath, ?_⟩
  show (env.flagsStrict.applyTo ((env.iniParse (initConfig env).iniPath).1.applyTo
    (env.flagsTolerant.applyTo (defaultConfig env.platform)))) = _
  rw [hpath, hfile, hflag, htol]
  rfl

/-- C7, amended, at `P = /tmp/custom.conf` and `V = 127.0.0.1:9000`. -/
theorem custom_conf_resolution_witness :
    (initConfig envCustomConf).iniPath = "/tmp/custom.conf" ∧
    (initConfig envCustomConf).cfg =
      { defaultConfig linuxAlice with
        ConfigFile := "/tmp/custom.conf", RESTHost := "127.0.0.1:9000" } :=
  custom_conf_resolution envCustomConf "/tmp/custom.conf" "127.0.0.1:9000" rfl rfl
    (by decide)

/-! ## The platform paths -/

/-- C9: `getDefaultDataDir` is `path.Join(h, "LightningTip")` on `windows`
and `darwin` and `path.Join(h, ".lightningtip")` on every other OS family,
where `h` is the result of `getHomeDir`; two platforms with the same OS
family and the same home directory get the same data directory. -/
theorem getDefaultDataDir_rule :
    (∀ p : Platform, getDefaultDataDir p =
      if p.GOOS = "windows" ∨ p.GOOS = "darwin" then pathJoin [getHomeDir p, "LightningTip"]
      else pathJoin [getHomeDir p, ".lightningtip"]) ∧
    (∀ p q : Platform, p.GOOS = q.GOOS → getHomeDir p = getHomeDir q →
      getDefaultDataDir p = getDefaultDataDir q) := by
  have hlow : ∀ lr : Char → Char, "." ++ toLower lr "LightningTip" = ".lightningtip" :=
    fun _ => rfl
  have hdir : defaultDataDir = "LightningTip" := rfl
  have hrule : ∀ p : Platform, getDefaultDataDir p =
      if p.GOOS = "windows" ∨ p.GOOS = "darwin" then pathJoin [getHomeDir p, "LightningTip"]
      else pathJoin [getHomeDir p, ".lightningtip"] := by
    intro p
    unfold getDefaultDataDir
    simp only [hdir, hlow]
    by_cases hw : p.GOOS = "windows"
    · simp [hw]
    · by_cases hd : p.GOOS = "darwin"
      · simp [hd]
      · simp [hw, hd]
  refine ⟨hrule, ?_⟩
  intro p q hos hhome
  rw [hrule p, hrule q, hos, hhome]

/-- C10: the credential directory is `path.Join(home, "Lnd")` on `windows`
and `darwin` and `path.Join(home, ".lnd")` elsewhere, and the defaults
`initConfig` builds are `D/lightningTip.conf`, `D`, `D/lightningTip.log`,
`L/tls.cert` and `L/invoice.macaroon` for the data directory `D` and the
credential directory `L`; on Linux with the home `/home/alice` these are the
paths under `/home/alice/.lightningtip` and `/home/alice/.lnd`. -/
theorem default_layout :
    (∀ p : Platform,
      (getDefaultLndDir p =
        if p.GOOS = "windows" ∨ p.GOOS = "darwin" then pathJoin [getHomeDir p, "Lnd"]
        else pathJoin [getHomeDir p, ".lnd"]) ∧
      (defaultConfig p).ConfigFile = pathJoin [getDefaultDataDir p, "lightningTip.conf"] ∧
      (defaultConfig p).DataDir = getDefaultDataDir p ∧
      (defaultConfig p).LogFile = pathJoin [getDefaultDataDir p, "lightningTip.log"] ∧
      (defaultConfig p).LND.CertFile = pathJoin [getDefaultLndDir p, "tls.cert"] ∧
      (defaultConfig p).LND.MacaroonFile = pathJoin [getDefaultLndDir p, "invoice.macaroon"]) ∧
    (∀ env : Env, env.flagsTolerant = Assignment.empty → env.flagsStrict = Assignment.empty →
      (env.iniParse (initConfig env).iniPath).1 = Assignment.empty →
      (initConfig env).cfg = defaultConfig env.platform) ∧
    (defaultConfig linuxAlice).ConfigFile = "/home/alice/.lightningtip/lightningTip.conf" ∧
    (defaultConfig linuxAlice).DataDir = "/home/alice/.lightningtip" ∧
    (defaultConfig linuxAlice).LogFile = "/home/alice/.lightningtip/lightningTip.log" ∧
    (defaultConfig linuxAlice).LND.CertFile = "/home/alice/.lnd/tls.cert" ∧
    (defaultConfig linuxAlice).LND.MacaroonFile = "/home/alice/.lnd/invoice.macaroon" ∧
    (defaultConfig darwinAlice).ConfigFile =
      "/Users/alice/Library/Application Support/LightningTip/lightningTip.conf" ∧
    (defaultConfig darwinAlice).LND.MacaroonFile =
      "/Users/alice/Library/Application Support/Lnd/invoice.macaroon" := by
  refine ⟨?_, ?_, by decide, by decide, by decide, by decide, by decide, by decide, by decide⟩
  · intro p
    refine ⟨?_, rfl, rfl, rfl, rfl, rfl⟩
    unfold getDefaultLndDir
    by_cases hw : p.GOOS = "windows"
    · simp [hw]
    · by_cases hd : p.GOOS = "darwin"
      · simp [hd]
      · simp [hw, hd]
  · intro env htol hflag hfile
    show (env.flagsStrict.applyTo ((env.iniParse (initConfig env).iniPath).1.applyTo
      (env.flagsTolerant.applyTo (defaultConfig env.platform)))) = _
    rw [hfile, hflag, htol]
    rfl

/-! ## The directory step -/

/-- C4: the directory step of `initConfig` works on `getDefaultDataDir()`,
whatever `cfg.DataDir` is: with `--datadir=/tmp/tipdata` the final
`cfg.DataDir` is `/tmp/tipdata`, while the path handed to `os.Stat` and to
`os.Mkdir` (mode 0700) is `/home/alice/.lightningtip`, and `/tmp/tipdata` is
not created. -/
theorem dataDir_flag_not_used_by_directory_step :
    (∀ env : Env,
      (initConfig env).dir = createDataDir (getDefaultDataDir env.platform) env.fs) ∧
    (initConfig envDataDir).cfg.DataDir = "/tmp/tipdata" ∧
    (initConfig envDataDir).dir.calls =
      [OsCall.stat "/home/alice/.lightningtip",
       OsCall.mkdir "/home/alice/.lightningtip" 0o700] ∧
    (initConfig envDataDir).dir.fs.existing = ["/home/alice/.lightningtip", "/home/alice"] ∧
    (initConfig envDataDir).dir.errDataDir = none := by
  refine ⟨fun _ => rfl, by decide, by decide, by decide, by decide⟩

/-- C8, as stated, fails on a filesystem that refuses the creation of the
directory: the state after the second run is the state after the first, but
the second run reports a directory-creation error again. -/
theorem createDataDir_twice_refused :
    ¬ (∀ (fs : FileSystem) (dir : String),
        (createDataDir dir (createDataDir dir fs).fs).fs = (createDataDir dir fs).fs ∧
        (createDataDir dir (createDataDir dir fs).fs).errDataDir = none) := by
  intro h
  have h2 := (h fsRefused "/data").2
  revert h2
  decide

/-- C8, amended: for every filesystem state and path, the state after the
second run of the directory step equals the state after the first run, the
second run reports the same directory-creation error as the first, and when
the first run reports none the second run reports none and only calls
`os.Stat`. -/
theorem createDataDir_idempotent (fs : FileSystem) (dir : String) :
    (createDataDir dir (createDataDir dir fs).fs).fs = (createDataDir dir fs).fs ∧
    (createDataDir dir (createDataDir dir fs).fs).errDataDir = (createDataDir dir fs).errDataDir ∧
    ((createDataDir dir fs).errDataDir = none →
      (createDataDir dir (createDataDir dir fs).fs).errDataDir = none ∧
      (createDataDir dir (createDataDir dir fs).fs).dataDirCreated = false ∧
      (createDataDir dir (createDataDir dir fs).fs).calls = [OsCall.stat dir]) := by
  by_cases hu : dir ∈ fs.unreadable
  · simp [createDataDir, osStat, osIsNotExist, hu]
  · by_cases he : dir ∈ fs.existing
    · simp [createDataDir, osStat, osIsNotExist, hu, he]
    · by_cases hr : dir ∈ fs.refused
      · simp [createDataDir, osStat, osIsNotExist, osMkdir, hu, he, hr]
      · simp [createDataDir, osStat, osIsNotExist, osMkdir, hu, he, hr]

/-- C8, amended, on a filesystem where `/data` is absent and may be
created: the first run creates it and the second run reports no error. -/
theorem createDataDir_idempotent_witness :
    (createDataDir "/data" fsFresh).fs.existing = ["/data"] ∧
    (createDataDir "/data" (createDataDir "/data" fsFresh).fs).fs =
      (createDataDir "/data" fsFresh).fs ∧
    (createDataDir "/data" (createDataDir "/data" fsFresh).fs).errDataDir = none ∧
    (createDataDir "/data" (createDataDir "/data" fsFresh).fs).dataDirCreated = false :=
  ⟨by decide, (createDataDir_idempotent fsFresh "/data").1,
   ((createDataDir_idempotent fsFresh "/data").2.2 (by decide)).1,
   ((createDataDir_idempotent fsFresh "/data").2.2 (by decide)).2.1⟩

/-! ## The messages -/

/-- C6: when `initLogger` fails, the message `initConfig` logs carries the
text of the flag-parse error `err`, not of the logger error: it is
`Failed to initialize log file: ` followed by `fmt.Sprint(err)`, which is
`<nil>` on a command line that parses (the logger error there is
`open /home/alice/.lightningtip/lightningTip.log: permission denied`). -/
theorem logFile_error_message_uses_flag_error :
    (∀ (env : Env) (e : String), (initConfig env).errLogFile = some e →
      (Level.ERROR, "Failed to initialize log file: " ++ sprintError env.flagsErr)
        ∈ (initConfig env).messages) ∧
    (initConfig envLogFileFails).errLogFile =
      some "open /home/alice/.lightningtip/lightningTip.log: permission denied" ∧
    (initConfig envLogFileFails).messages =
      [(Level.DEBUG, "Parsed config file: /home/alice/.lightningtip/lightningTip.conf"),
       (Level.ERROR, "Failed to initialize log file: <nil>")] := by
  refine ⟨?_, by decide, by decide⟩
  intro env e he
  have hm : (initConfig env).messages =
      startupMessages env.platform (initConfig env).cfg env.flagsErr
        (initConfig env).dir.errDataDir (initConfig env).dir.dataDirCreated
        (mergeConfig env).2.1 (initConfig env).errLogFile := rfl
  rw [hm, he]
  simp [startupMessages]

/-! ## Absolute paths -/

/-- On a rooted path the inner loop of `..` stops at index 1 at the latest. -/
theorem backLoop_pos (buf : List Char) (w : Nat) (hw : 1 ≤ w) : 1 ≤ backLoop buf 1 w := by
  induction w with
  | zero => omega
  | succ n ih =>
    unfold backLoop
    split_ifs with h
    · exact ih (by omega)
    · omega

/-- On a rooted path `..` never removes the leading slash. -/
theorem backtrack_rooted (r : List Char) (h : 1 < ('/' :: r).length) :
    ∃ r2, backtrack ('/' :: r) 1 = '/' :: r2 := by
  have hpos : 1 ≤ backLoop ('/' :: r) 1 (('/' :: r).length - 1) :=
    backLoop_pos _ _ (by omega)
  unfold backtrack
  obtain ⟨n, hn⟩ : ∃ n, backLoop ('/' :: r) 1 (('/' :: r).length - 1) = n + 1 :=
    ⟨backLoop ('/' :: r) 1 (('/' :: r).length - 1) - 1, by omega⟩
  rw [hn]
  exact ⟨r.take n, rfl⟩

/-- The main loop of `path.Clean` on a rooted path keeps the leading slash
of the buffer, for the unread path and for its tail. -/
theorem cleanLoop_rooted (path : List Char) :
    (∀ (inElem : Bool) (r : List Char),
      ∃ r2, cleanLoop true inElem path ('/' :: r) 1 = '/' :: r2) ∧
    (∀ (inElem : Bool) (r : List Char),
      ∃ r2, cleanLoop true inElem path.tail ('/' :: r) 1 = '/' :: r2) := by
  induction path with
  | nil =>
    refine ⟨?_, ?_⟩ <;> intro inElem r <;> exact ⟨r, by simp [cleanLoop]⟩
  | cons c tl ih =>
    obtain ⟨ih1, ih2⟩ := ih
    refine ⟨?_, ih1⟩
    intro inElem r
    cases inElem with
    | true =>
      rw [cleanLoop]
      split_ifs
      · exact ih1 false r
      · exact ih1 true (r ++ [c])
    | false =>
      cases tl with
      | nil =>
        simp only [cleanLoop]
        split_ifs <;> exact ⟨_, rfl⟩
      | cons d tl2 =>
        have ih3 : ∀ (inElem : Bool) (r : List Char),
            ∃ r2, cleanLoop true inElem tl2 ('/' :: r) 1 = '/' :: r2 := ih2
        rw [cleanLoop.eq_def]
        simp only [Bool.not_true, Bool.false_and, Bool.or_false, Bool.true_and,
          Bool.false_eq_true, if_false]
        split_ifs with h1 h2 h3 h4 h5
        · exact ih1 false r
        · exact ih1 false r
        · obtain ⟨r2, hr2⟩ := backtrack_rooted r h4
          rw [hr2]
          exact ih3 false r2
        · exact ih3 false r
        · exact ih1 true (r ++ ['/'] ++ [c])
        · exact ih1 true (r ++ [c])

/-- The function `path.Clean` keeps a leading slash. -/
theorem cleanChars_rooted (tl : List Char) : ∃ r2, cleanChars ('/' :: tl) = '/' :: r2 := by
  obtain ⟨r2, hr2⟩ := (cleanLoop_rooted tl).1 false []
  refine ⟨r2, ?_⟩
  simp [cleanChars, hr2]

/-- The buffer of `path.Join` keeps its first rune. -/
theorem joinBuf_head (es : List String) (c : Char) (r : List Char) :
    ∃ r2, joinBuf (c :: r) es = c :: r2 := by
  induction es generalizing r with
  | nil => exact ⟨r, rfl⟩
  | cons e es ih =>
    rw [joinBuf]
    simp only [List.length_cons, Nat.zero_lt_succ, true_or, if_true, List.cons_append]
    exact ih _

/-- The function `path.Join` on a first element that is absolute gives an
absolute path. -/
theorem pathJoin_isAbs (a : String) (es : List String) (h : isAbs a = true) :
    isAbs (pathJoin (a :: es)) = true := by
  obtain ⟨r, hr⟩ : ∃ r, a.data = '/' :: r := by
    unfold isAbs at h
    cases hd : a.data with
    | nil => simp [hd] at h
    | cons c r =>
      simp [hd] at h
      exact ⟨r, by rw [h]⟩
  have hbuf : joinBuf [] (a :: es) = joinBuf ('/' :: r) es := by
    rw [joinBuf]
    simp [hr]
  obtain ⟨r1, hr1⟩ := joinBuf_head es '/' r
  obtain ⟨r2, hr2⟩ := cleanChars_rooted r1
  have hlen : a.length ≠ 0 := by
    show a.data.length ≠ 0
    simp [hr]
  unfold pathJoin
  simp [hbuf, hr1, hr2, isAbs, hlen]

/-- The function `getHomeDir` gives an absolute path when the lookup of the
current user succeeds with an absolute home. -/
theorem getHomeDir_isAbs (p : Platform) (home : String)
    (hu : p.currentUser = some home) (habs : isAbs home = true) :
    isAbs (getHomeDir p) = true := by
  unfold getHomeDir
  rw [hu]
  simp only
  split_ifs
  · exact pathJoin_isAbs home _ habs
  · exact pathJoin_isAbs home _ habs
  · exact habs

/-- The function `getDefaultDataDir` gives an absolute path when the home
directory is absolute. -/
theorem getDefaultDataDir_isAbs (p : Platform) (h : isAbs (getHomeDir p) = true) :
    isAbs (getDefaultDataDir p) = true := by
  unfold getDefaultDataDir
  simp only
  split_ifs <;> exact pathJoin_isAbs _ _ h

/-- The function `getDefaultLndDir` gives an absolute path when the home
directory is absolute. -/
theorem getDefaultLndDir_isAbs (p : Platform) (h : isAbs (getHomeDir p) = true) :
    isAbs (getDefaultLndDir p) = true := by
  unfold getDefaultLndDir
  simp only
  split_ifs <;> exact pathJoin_isAbs _ _ h

/-- C5, as stated, fails when `user.Current()` fails: on Linux the home
directory is then empty and the five default paths are the relative paths
`.lightningtip/lightningTip.conf`, `.lightningtip`,
`.lightningtip/lightningTip.log`, `.lnd/tls.cert` and
`.lnd/invoice.macaroon`. -/
theorem default_paths_relative_without_user :
    getHomeDir linuxNoUser = "" ∧
    (defaultConfig linuxNoUser).ConfigFile = ".lightningtip/lightningTip.conf" ∧
    (defaultConfig linuxNoUser).DataDir = ".lightningtip" ∧
    (defaultConfig linuxNoUser).LogFile = ".lightningtip/lightningTip.log" ∧
    (defaultConfig linuxNoUser).LND.CertFile = ".lnd/tls.cert" ∧
    (defaultConfig linuxNoUser).LND.MacaroonFile = ".lnd/invoice.macaroon" ∧
    isAbs (defaultConfig linuxNoUser).ConfigFile = false ∧
    isAbs (defaultConfig linuxNoUser).DataDir = false ∧
    isAbs (defaultConfig linuxNoUser).LogFile = false ∧
    isAbs (defaultConfig linuxNoUser).LND.CertFile = false ∧
    isAbs (defaultConfig linuxNoUser).LND.MacaroonFile = false := by
  decide

/-- C5, amended: on every OS family, when the lookup of the current user
succeeds and the home directory of the user is absolute, the home directory
`getHomeDir` resolves is absolute and each of the five default paths
(`ConfigFile`, `DataDir`, `LogFile`, `LND.CertFile`, `LND.MacaroonFile`) is
an absolute path, joined from that home directory. -/
theorem default_paths_absolute (p : Platform) (home : String)
    (hu : p.currentUser = some home) (habs : isAbs home = true) :
    isAbs (getHomeDir p) = true ∧
    isAbs (defaultConfig p).ConfigFile = true ∧
    isAbs (defaultConfig p).DataDir = true ∧
    isAbs (defaultConfig p).LogFile = true ∧
    isAbs (defaultConfig p).LND.CertFile = true ∧
    isAbs (defaultConfig p).LND.MacaroonFile = true ∧
    (∃ d : String, (defaultConfig p).DataDir = pathJoin [getHomeDir p, d] ∧
      (defaultConfig p).ConfigFile = pathJoin [pathJoin [getHomeDir p, d], defaultConfigFile] ∧
      (defaultConfig p).LogFile = pathJoin [pathJoin [getHomeDir p, d], defaultLogFile]) ∧
    (∃ l : String,
      (defaultConfig p).LND.CertFile = pathJoin [pathJoin [getHomeDir p, l], defaultLndCertFile] ∧
      (defaultConfig p).LND.MacaroonFile =
        pathJoin [pathJoin [getHomeDir p, l], defaultMacaroonFile]) := by
  have hh := getHomeDir_isAbs p home hu habs
  have hd := getDefaultDataDir_isAbs p hh
  have hl := getDefaultLndDir_isAbs p hh
  refine ⟨hh, pathJoin_isAbs _ _ hd, hd, pathJoin_isAbs _ _ hd, pathJoin_isAbs _ _ hl,
    pathJoin_isAbs _ _ hl, ?_, ?_⟩
  · by_cases hw : p.GOOS = "windows"
    · exact ⟨defaultDataDir, by simp [defaultConfig, getDefaultDataDir, hw]⟩
    · by_cases hm : p.GOOS = "darwin"
      · exact ⟨defaultDataDir, by simp [defaultConfig, getDefaultDataDir, hm]⟩
      · exact ⟨"." ++ toLower p.lowerRune defaultDataDir,
          by simp [defaultConfig, getDefaultDataDir, hw, hm]⟩
  · by_cases hw : p.GOOS = "windows"
    · exact ⟨"Lnd", by simp [defaultConfig, getDefaultLndDir, hw]⟩
    · by_cases hm : p.GOOS = "darwin"
      · exact ⟨"Lnd", by simp [defaultConfig, getDefaultLndDir, hm]⟩
      · exact ⟨".lnd", by simp [defaultConfig, getDefaultLndDir, hw, hm]⟩

/-- C5, amended, on Linux with the home `/home/alice` and on macOS with the
home `/Users/alice`. -/
theorem default_paths_absolute_witness :
    isAbs "/home/alice" = true ∧
    isAbs (defaultConfig linuxAlice).ConfigFile = true ∧
    isAbs (defaultConfig linuxAlice).LND.MacaroonFile = true ∧
    isAbs (defaultConfig darwinAlice).LogFile = true :=
  ⟨by decide,
   (default_paths_absolute linuxAlice "/home/alice" rfl (by decide)).2.1,
   (default_paths_absolute linuxAlice "/home/alice" rfl (by decide)).2.2.2.2.2.1,
   (default_paths_absolute darwinAlice "/Users/alice" rfl (by decide)).2.2.2.1⟩

end LightningTip
